import Mathlib

/-!
Verification of the `ble-gw-auto-parser` repository against its specification.

The Go sources are shallowly embedded:
* `parser.go` — the MKGW4 TLV frame decoder (`parseStatusTLV`, `parseFixTLV`,
  `DecodeMKGW4Auto`, `ParseMAC12`, `be16`, `be32`, `looksLikeHex`);
* `storage/storage.go` — the parameter construction and SQL semantics of
  `UpdateGatewayParsedAndDenormByID`, and the two `handleAuto` HTTP handler
  variants (the pub/sub + merge-by-row-id variant and the upsert variant);
* `storage` package — `UpsertAuto` (modelled as an effect).

Go byte slices are `List Nat` (each element a byte value 0–255); Go strings
that carry raw bytes (TLV text fields) are also `List Nat`; textual strings
at the HTTP layer are Lean `String`s.  Go `int`/`int64` arithmetic on the
paths modelled here never overflows 64 bits (all values are built from at
most 4 bytes), so `Nat`/`Int` are used with explicit two's-complement
reduction where the source converts through `int32`.
-/

namespace BleGw

/-! ## Big-endian helpers (parser.go `be16`, `be32`) -/

/-- `be16` from parser.go: `int(b[0])<<8 | int(b[1])`. -/
def be16 (b0 b1 : Nat) : Nat := b0 * 256 + b1

/-- `be32` from parser.go: `int64(b[0])<<24 | ... | int64(b[3])`. -/
def be32 (b0 b1 b2 b3 : Nat) : Nat := ((b0 * 256 + b1) * 256 + b2) * 256 + b3

/-- Two's-complement reading of a 32-bit pattern, as Go's `int32(x)`
conversion produces for a value assembled from 4 bytes. -/
def toSigned32 (n : Nat) : Int :=
  if n % 4294967296 < 2147483648 then ((n % 4294967296 : Nat) : Int)
  else ((n % 4294967296 : Nat) : Int) - 4294967296

/-! ## Decoded report types (parser.go `AutoStatus`, `AutoFix`) -/

/-- `AutoStatus` from parser.go.  Go strings holding raw TLV bytes are
`List Nat`; the Go zero value of each field is the structure `AutoStatus.zero`
below (empty string / 0), exactly as `&AutoStatus{}` produces. -/
structure AutoStatus where
  NetworkType : List Nat
  CSQ : Nat
  BattmV : Nat
  AxisXmg : Nat
  AxisYmg : Nat
  AxisZmg : Nat
  AccStatus : Nat
  IMEI : List Nat
  ICCID : List Nat
deriving Repr, DecidableEq

/-- The Go zero value `AutoStatus{}`. -/
def AutoStatus.zero : AutoStatus :=
  { NetworkType := [], CSQ := 0, BattmV := 0, AxisXmg := 0, AxisYmg := 0
    AxisZmg := 0, AccStatus := 0, IMEI := [], ICCID := [] }

/-- `AutoFix` from parser.go.  `Longitude`/`Latitude` hold the signed 32-bit
integers decoded from tag 0x03 in 1e-7-degree units; the final float64
multiplication by 1e-7 in Go is a strictly monotone rescaling not observed by
any claim and is left in these integer units.  `CI` mirrors the Go `int64`
field. -/
structure AutoFix where
  FixMode : String
  FixResult : String
  Longitude : Int
  Latitude : Int
  TacLac : Nat
  CI : Int
deriving Repr, DecidableEq

/-- The Go zero value `AutoFix{}`. -/
def AutoFix.zero : AutoFix :=
  { FixMode := "", FixResult := "", Longitude := 0, Latitude := 0
    TacLac := 0, CI := 0 }

/-! ## Status TLV parser (parser.go `parseStatusTLV`) -/

/-- The `switch tag` body of `parseStatusTLV`.  `ln` is the declared TLV
length (already checked against the remaining buffer by the caller) and `v`
is the value slice `body[i : i+ln]`, so `v.length = ln`.  Reads `v.getD k 0`
correspond to `body[i+k]`; every read is guarded by the same `ln >= w` test
as in the source, so the `getD` default is never used. -/
def statusSwitch (st : AutoStatus) (ts : Nat) (tag ln : Nat) (v : List Nat) :
    AutoStatus × Nat :=
  match tag with
  | 0x00 => (st, if 4 ≤ ln then be32 (v.getD 0 0) (v.getD 1 0) (v.getD 2 0) (v.getD 3 0) else ts)
  | 0x01 => ({ st with NetworkType := v }, ts)
  | 0x02 => (if 1 ≤ ln then { st with CSQ := v.getD 0 0 } else st, ts)
  | 0x03 => (if 2 ≤ ln then { st with BattmV := be16 (v.getD 0 0) (v.getD 1 0) } else st, ts)
  | 0x04 => (if 3 ≤ ln then
      { st with AxisXmg := v.getD 0 0, AxisYmg := v.getD 1 0, AxisZmg := v.getD 2 0 }
      else st, ts)
  | 0x05 => (if 1 ≤ ln then { st with AccStatus := v.getD 0 0 } else st, ts)
  | 0x06 => ({ st with IMEI := v }, ts)
  | _ => (st, ts)

/-- `parseStatusTLV` from parser.go, as a recursion on the unread suffix of
`body`.  One loop iteration reads the tag byte, checks that at least 2 bytes
remain for the length header (`i+2 > len(body)` ⇒ error "status tlv len
OOB"), reads the big-endian length, checks `i+ln > len(body)` (⇒ error
"status tlv OOB"), applies the tag switch and continues after the value. -/
def parseStatusTLV : List Nat → AutoStatus → Nat → Except String (AutoStatus × Nat)
  | [], st, ts => Except.ok (st, ts)
  | tag :: b0 :: b1 :: r2, st, ts =>
    let ln := be16 b0 b1
    if ln ≤ r2.length then
      let p := statusSwitch st ts tag ln (r2.take ln)
      parseStatusTLV (r2.drop ln) p.1 p.2
    else Except.error "status tlv OOB"
  | [_], _, _ => Except.error "status tlv len OOB"
  | [_, _], _, _ => Except.error "status tlv len OOB"
termination_by body _ _ => body.length
decreasing_by simp [List.length_drop]; omega

/-- Entry point of `parseStatusTLV` as called from `DecodeMKGW4Auto`:
`st := &AutoStatus{}`, `var ts int64` (zero). -/
def parseStatusRun (body : List Nat) : Except String (AutoStatus × Nat) :=
  parseStatusTLV body AutoStatus.zero 0

/-! ## Fix TLV parser (parser.go `parseFixTLV`) -/

/-- `fixModeNames` from parser.go. -/
def fixModeNames : List String := ["Periodic", "Motion", "Downlink"]

/-- `fixResultNames` from parser.go. -/
def fixResultNames : List String :=
  ["GPS fix success", "LBS fix success", "Interrupted by Downlink",
   "GPS serial port is used", "GPS aiding timeout", "GPS timeout",
   "PDOP limit", "LBS failure"]

/-- The `switch tag` body of `parseFixTLV`; same conventions as
`statusSwitch`.  Note tag 0x03 converts through `int32` (two's complement,
`toSigned32`) while tag 0x04 assembles `CI` with `int64` arithmetic and
therefore performs no sign extension. -/
def fixSwitch (f : AutoFix) (ts : Nat) (tag ln : Nat) (v : List Nat) :
    AutoFix × Nat :=
  match tag with
  | 0x00 => (f, if 4 ≤ ln then be32 (v.getD 0 0) (v.getD 1 0) (v.getD 2 0) (v.getD 3 0) else ts)
  | 0x01 => (if 1 ≤ ln then
      (let idx := v.getD 0 0
       if idx < fixModeNames.length then { f with FixMode := fixModeNames.getD idx "" } else f)
      else f, ts)
  | 0x02 => (if 1 ≤ ln then
      (let idx := v.getD 0 0
       if idx < fixResultNames.length then { f with FixResult := fixResultNames.getD idx "" } else f)
      else f, ts)
  | 0x03 => (if 8 ≤ ln then
      { f with
        Longitude := toSigned32 (be32 (v.getD 0 0) (v.getD 1 0) (v.getD 2 0) (v.getD 3 0))
        Latitude := toSigned32 (be32 (v.getD 4 0) (v.getD 5 0) (v.getD 6 0) (v.getD 7 0)) }
      else f, ts)
  | 0x04 => (if 6 ≤ ln then
      { f with
        CI := ((be32 (v.getD 0 0) (v.getD 1 0) (v.getD 2 0) (v.getD 3 0) : Nat) : Int)
        TacLac := be16 (v.getD 4 0) (v.getD 5 0) }
      else f, ts)
  | _ => (f, ts)

/-- `parseFixTLV` from parser.go; same loop skeleton as `parseStatusTLV`
with the fix tag switch and the fix error strings. -/
def parseFixTLV : List Nat → AutoFix → Nat → Except String (AutoFix × Nat)
  | [], f, ts => Except.ok (f, ts)
  | tag :: b0 :: b1 :: r2, f, ts =>
    let ln := be16 b0 b1
    if ln ≤ r2.length then
      let p := fixSwitch f ts tag ln (r2.take ln)
      parseFixTLV (r2.drop ln) p.1 p.2
    else Except.error "fix tlv OOB"
  | [_], _, _ => Except.error "fix tlv len OOB"
  | [_, _], _, _ => Except.error "fix tlv len OOB"
termination_by body _ _ => body.length
decreasing_by simp [List.length_drop]; omega

/-- Entry point of `parseFixTLV` as called from `DecodeMKGW4Auto`. -/
def parseFixRun (body : List Nat) : Except String (AutoFix × Nat) :=
  parseFixTLV body AutoFix.zero 0

/-! ## TLV structural wellformedness and record extraction

`tlvShapeOK` states, following the spec's words, the condition under which
the TLV iteration completes: at every step at least 2 bytes remain for the
length header and the declared value length fits in the remaining buffer.
`tlvRecords` extracts the `(tag, value)` record list of a well-shaped buffer
(`none` on a truncated one); both share the parsers' recursion scheme. -/

def tlvShapeOK : List Nat → Bool
  | [] => true
  | _ :: b0 :: b1 :: r2 =>
    be16 b0 b1 ≤ r2.length && tlvShapeOK (r2.drop (be16 b0 b1))
  | _ => false
termination_by body => body.length
decreasing_by simp [List.length_drop]; omega

def tlvRecords : List Nat → Option (List (Nat × List Nat))
  | [] => some []
  | tag :: b0 :: b1 :: r2 =>
    let ln := be16 b0 b1
    if ln ≤ r2.length then
      match tlvRecords (r2.drop ln) with
      | some rs => some ((tag, r2.take ln) :: rs)
      | none => none
    else none
  | _ => none
termination_by body => body.length
decreasing_by simp [List.length_drop]; omega

/-! ## Go string primitives

The Go standard-library string functions used by the sources, modelled on
`String.data` (`List Char`).  `strings.TrimSpace`/`unicode.IsSpace` is
modelled on its Latin-1 fragment (space, TAB, LF, VT, FF, CR, NEL, NBSP);
`strings.ToUpper`/`ToLower` on their ASCII fragment.  No claim depends on
case-mapping or space-trimming outside these fragments. -/

def isGoSpace (c : Char) : Bool :=
  decide (c.toNat = 32 ∨ c.toNat = 9 ∨ c.toNat = 10 ∨ c.toNat = 11 ∨
    c.toNat = 12 ∨ c.toNat = 13 ∨ c.toNat = 133 ∨ c.toNat = 160)

/-- `strings.TrimSpace`. -/
def goTrimSpace (s : String) : String :=
  ⟨((s.data.dropWhile isGoSpace).reverse.dropWhile isGoSpace).reverse⟩

/-- ASCII case step of `strings.ToUpper`. -/
def goCharUpper (c : Char) : Char :=
  if 97 ≤ c.toNat ∧ c.toNat ≤ 122 then Char.ofNat (c.toNat - 32) else c

/-- ASCII case step of `strings.ToLower`. -/
def goCharLower (c : Char) : Char :=
  if 65 ≤ c.toNat ∧ c.toNat ≤ 90 then Char.ofNat (c.toNat + 32) else c

/-- `strings.ToUpper`. -/
def goUpper (s : String) : String := ⟨s.data.map goCharUpper⟩

/-- `strings.ToLower`. -/
def goLower (s : String) : String := ⟨s.data.map goCharLower⟩

/-- The separator set of the `strings.NewReplacer(" ", "", ":", "", "-", "",
".", "")` used on hex payloads. -/
def isHexSep (c : Char) : Bool := decide (c = ' ' ∨ c = ':' ∨ c = '-' ∨ c = '.')

/-- Separator removal by that replacer. -/
def stripSeps (s : String) : String := ⟨s.data.filter (fun c => !isHexSep c)⟩

/-- `strings.TrimPrefix(s, "self/")`. -/
def trimSelfFlag (s : String) : String :=
  if s.startsWith "self/" then s.drop 5 else s

/-- `strings.TrimPrefix(h, "Bearer ")`. -/
def trimBearer (s : String) : String :=
  if s.startsWith "Bearer " then s.drop 7 else s

/-! ## Hex decoding (`encoding/hex.DecodeString`) -/

/-- Value of one hex digit; `none` on a non-hex character.  Accepts both
cases, as `encoding/hex` and `fmt.Sscanf` do. -/
def hexDigitVal (c : Char) : Option Nat :=
  if 48 ≤ c.toNat ∧ c.toNat ≤ 57 then some (c.toNat - 48)
  else if 65 ≤ c.toNat ∧ c.toNat ≤ 70 then some (c.toNat - 55)
  else if 97 ≤ c.toNat ∧ c.toNat ≤ 102 then some (c.toNat - 87)
  else none

/-- `hex.DecodeString`: pairs of hex digits to bytes; `none` on an odd
length or a non-hex character. -/
def hexDecodeChars : List Char → Option (List Nat)
  | [] => some []
  | [_] => none
  | c1 :: c2 :: rest =>
    match hexDigitVal c1, hexDigitVal c2, hexDecodeChars rest with
    | some hi, some lo, some bs => some ((hi * 16 + lo) :: bs)
    | _, _, _ => none

/-! ## `ParseMAC12` (parser.go) -/

/-- The `fmt.Sscanf(pair, "%02X", &v)` step on a 2-character slice: fails if
the first character is not a hex digit; if only the first is, `%02X` stops
after one digit and yields its value (Go reports no error then).  Interior
whitespace skipping by `Sscanf` is not modelled; no claim exercises it. -/
def sscanfHex2 (c1 c2 : Char) : Option Nat :=
  match hexDigitVal c1 with
  | none => none
  | some hi =>
    match hexDigitVal c2 with
    | none => some hi
    | some lo => some (hi * 16 + lo)

/-- The `for i := 0; i < 6; i++` pair loop of `ParseMAC12` (the character
list always has length 12 at the call site). -/
def macPairs : List Char → Option (List Nat)
  | [] => some []
  | [_] => none
  | c1 :: c2 :: rest =>
    match sscanfHex2 c1 c2, macPairs rest with
    | some v, some vs => some (v :: vs)
    | _, _ => none

/-- `ParseMAC12` from parser.go: uppercase the trimmed string, require
exactly 12 characters, then scan 6 hex pairs. -/
def ParseMAC12 (s : String) : Except String (List Nat) :=
  let t := goUpper (goTrimSpace s)
  if t.data.length ≠ 12 then Except.error "mac must be 12 hex chars"
  else
    match macPairs t.data with
    | some out => Except.ok out
    | none => Except.error "bad mac"

/-! ## `DecodeMKGW4Auto` (parser.go, two-argument version) -/

/-- `Auto` from parser.go.  `Timestamp` is in seconds. -/
structure Auto where
  Flag : String
  Timestamp : Nat
  Hex : String
  Status : Option AutoStatus
  Fix : Option AutoFix
deriving Repr, DecidableEq

/-- The `( *Auto, bool, error)` result combinations `DecodeMKGW4Auto`
actually returns: `(nil, false, err)` on bad hex, `(nil, true, err)` on a
TLV parse error, `(nil, false, nil)` on an unknown flag, `(a, true, nil)`
on success. -/
inductive DecodeResult where
  | errHex
  | errParse (msg : String)
  | notApplicable
  | decoded (a : Auto)
deriving Repr, DecidableEq

/-- `DecodeMKGW4Auto(flagHex, bodyHex)` from parser.go.  `now` stands for
`time.Now().Unix()`, used only as the fallback when the frame carried no
timestamp (or a zero one). -/
def DecodeMKGW4Auto (flagHex bodyHex : String) (now : Nat) : DecodeResult :=
  let flag := goUpper (goTrimSpace flagHex)
  let h := stripSeps (goUpper (goTrimSpace bodyHex))
  match hexDecodeChars h.data with
  | none => DecodeResult.errHex
  | some b =>
    if flag = "3004" then
      match parseStatusRun b with
      | Except.error msg => DecodeResult.errParse msg
      | Except.ok (st, ts0) =>
        DecodeResult.decoded
          { Flag := goLower flag, Timestamp := if ts0 = 0 then now else ts0
            Hex := h, Status := some st, Fix := none }
    else if flag = "3089" ∨ flag = "30B1" then
      match parseFixRun b with
      | Except.error msg => DecodeResult.errParse msg
      | Except.ok (fx, ts0) =>
        DecodeResult.decoded
          { Flag := goLower flag, Timestamp := if ts0 = 0 then now else ts0
            Hex := h, Status := none, Fix := some fx }
    else DecodeResult.notApplicable

/-- `looksLikeHex` from storage.go: nonempty, and every character is a hex
digit (either case) or a tolerated separator. -/
def looksLikeHexChar (c : Char) : Bool :=
  decide ((48 ≤ c.toNat ∧ c.toNat ≤ 57) ∨ (65 ≤ c.toNat ∧ c.toNat ≤ 70) ∨
    c = ' ' ∨ c = ':' ∨ c = '-' ∨ c = '.' ∨ (97 ≤ c.toNat ∧ c.toNat ≤ 102))

def looksLikeHex (s : String) : Bool :=
  decide (s ≠ "") && s.data.all looksLikeHexChar

/-! ## Persistence gateway (storage/storage.go `UpdateGatewayParsedAndDenormByID`)

The Go function builds one nullable SQL parameter per denormalized column
and runs a single `UPDATE` statement.  `buildDenormParams` is the parameter
construction (the Go code between `b, _ := json.Marshal(parsed)` and the
`s.pool.Exec` call); `applyDenormUpdate` is the row semantics of the SQL
text itself (`SET parser = $2, ..., ts_device = COALESCE($4, ts_device),
latitude = $5, ...`).  A `none` parameter is the SQL NULL. -/

/-- The nullable parameters `$2..$17` of the UPDATE. `parserName`/`parserJson`
are the `parser`/`parser_json` arguments (`$2`, `$3`). -/
structure DenormParams where
  parserName : String
  parserJson : String
  tsDev : Option Int
  lat : Option Int
  lon : Option Int
  tac : Option Nat
  ci : Option Int
  netType : Option (List Nat)
  csq : Option Nat
  batt : Option Nat
  ax : Option Nat
  ay : Option Nat
  az : Option Nat
  acc : Option Nat
  imei : Option (List Nat)
  iccid : Option (List Nat)
deriving Repr, DecidableEq

/-- Parameter construction of `UpdateGatewayParsedAndDenormByID`, line by
line.  `deviceTsZero` is `deviceTs.IsZero()` and `deviceTsMs` the stored
timestamp value.  Note: the `iccid` local is declared but never assigned in
the source; a non-empty `st.ICCID` is assigned to the `imei` local
(overwriting the `st.IMEI` assignment just before). -/
def buildDenormParams (parserName parserJson : String) (deviceTsZero : Bool)
    (deviceTsMs : Int) (st : Option AutoStatus) (fx : Option AutoFix) :
    DenormParams :=
  let lon : Option Int := match fx with | some f => some f.Longitude | none => none
  let lat : Option Int := match fx with | some f => some f.Latitude | none => none
  let tac : Option Nat := match fx with | some f => some f.TacLac | none => none
  let ci : Option Int := match fx with | some f => some f.CI | none => none
  let netType : Option (List Nat) :=
    match st with
    | some s => if s.NetworkType ≠ [] then some s.NetworkType else none
    | none => none
  let imei0 : Option (List Nat) :=
    match st with
    | some s => if s.IMEI ≠ [] then some s.IMEI else none
    | none => none
  let imei : Option (List Nat) :=
    match st with
    | some s => if s.ICCID ≠ [] then some s.ICCID else imei0
    | none => imei0
  let iccid : Option (List Nat) := none
  let csq : Option Nat := match st with | some s => some s.CSQ | none => none
  let batt : Option Nat := match st with | some s => some s.BattmV | none => none
  let ax : Option Nat := match st with | some s => some s.AxisXmg | none => none
  let ay : Option Nat := match st with | some s => some s.AxisYmg | none => none
  let az : Option Nat := match st with | some s => some s.AxisZmg | none => none
  let acc : Option Nat := match st with | some s => some s.AccStatus | none => none
  let tsDev : Option Int := if deviceTsZero then none else some deviceTsMs
  { parserName := parserName, parserJson := parserJson, tsDev := tsDev
    lat := lat, lon := lon, tac := tac, ci := ci, netType := netType
    csq := csq, batt := batt, ax := ax, ay := ay, az := az, acc := acc
    imei := imei, iccid := iccid }

/-- One row of `public.gateway_message`, restricted to the columns the
UPDATE touches. -/
structure GatewayRow where
  parserName : String
  parserJson : String
  tsDevice : Int
  latitude : Option Int
  longitude : Option Int
  tac : Option Nat
  cellId : Option Int
  networkType : Option (List Nat)
  csq : Option Nat
  battMv : Option Nat
  axisX : Option Nat
  axisY : Option Nat
  axisZ : Option Nat
  accStatus : Option Nat
  imei : Option (List Nat)
  iccid : Option (List Nat)
deriving Repr, DecidableEq

/-- Row semantics of the UPDATE statement: every column is assigned its
parameter directly; only `ts_device` is wrapped in
`COALESCE($4, ts_device)`. -/
def applyDenormUpdate (row : GatewayRow) (p : DenormParams) : GatewayRow :=
  { parserName := p.parserName
    parserJson := p.parserJson
    tsDevice := match p.tsDev with | some t => t | none => row.tsDevice
    latitude := p.lat
    longitude := p.lon
    tac := p.tac
    cellId := p.ci
    networkType := p.netType
    csq := p.csq
    battMv := p.batt
    axisX := p.ax
    axisY := p.ay
    axisZ := p.az
    accStatus := p.acc
    imei := p.imei
    iccid := p.iccid }

/-! ## The HTTP handlers (storage.go `handleAuto`, both variants)

Request-scoped effects are traced as an explicit list: the JSON body decode,
the MKGW4 frame decode, the persistence write (merge-by-row-id or upsert)
and the pub/sub publish.  Store and bus outcomes are oracle inputs carried
by a world record, since they are external collaborators. -/

/-- The JSON envelope of `POST /auto`. -/
structure Envelope where
  RowID : Option Int
  GWHW : String
  GWMAC : String
  Topic : String
  Flag : String
  DeviceTsMs : Int
  PayloadHex : String
deriving Repr, DecidableEq

inductive Effect where
  | bodyDecode
  | frameDecode
  | persistMerge (rowId : Int) (st : Option AutoStatus) (fx : Option AutoFix)
  | persistUpsert (st : Option AutoStatus) (fx : Option AutoFix)
  | publish (st : Option AutoStatus) (fx : Option AutoFix)
deriving Repr, DecidableEq

structure HResponse where
  status : Nat
  body : String
  effects : List Effect
deriving Repr, DecidableEq

/-- An inbound request: method, raw `Authorization` header,
`X-Idempotency-Key` header, and the JSON decode of the body (`none` when
the body is not valid JSON for `Envelope`). -/
structure Request where
  method : String
  authHeader : String
  idemKey : String
  rawBody : Option Envelope
deriving Repr, DecidableEq

/-- `receiptsSeen` from storage.go: the receipts `INSERT ... ON CONFLICT DO
NOTHING`, whose outcome is the affected row count (or a store error); a
duplicate is exactly `RowsAffected() == 0`. -/
def receiptsSeen (dbOutcome : Except Unit Nat) : Except Unit Bool :=
  match dbOutcome with
  | Except.error e => Except.error e
  | Except.ok rows => Except.ok (rows == 0)

/-- Response bodies written by the pub/sub handler variant. -/
def okBody : String := "\x7b\"ok\":true\x7d"

def dupBody : String := "\x7b\"ok\":true,\"dup\":true\x7d"

/-- External outcomes for one request of the pub/sub handler variant:
the configured auth token, the receipts-insert outcome, whether
`UpdateGatewayParsedAndDenormByID` fails, whether the publish fails or
times out, and the wall clock. -/
structure PubWorld where
  authToken : String
  receiptRows : Except Unit Nat
  updateFails : Bool
  publishFails : Bool
  now : Nat
deriving Repr

/-- The pub/sub `handleAuto` variant (the one calling
`UpdateGatewayParsedAndDenormByID` and `psTopic.Publish`).  `main` aborts
when the topic is missing, so `psTopic` is always non-nil here.  An update
failure is logged and absorbed (`// Not fatal; continue to publish.`), a
publish failure/timeout is logged and absorbed; the success response is
always `200 {"ok":true}`. -/
def handleAutoPub (w : PubWorld) (r : Request) : HResponse :=
  if r.method ≠ "POST" then
    { status := 405, body := "method not allowed", effects := [] }
  else if w.authToken ≠ "" ∧
      (trimBearer r.authHeader = "" ∨ trimBearer r.authHeader ≠ w.authToken) then
    { status := 401, body := "unauthorized", effects := [] }
  else if goTrimSpace r.idemKey = "" then
    { status := 400, body := "missing idempotency", effects := [] }
  else
    match receiptsSeen w.receiptRows with
    | Except.error _ => { status := 500, body := "server error", effects := [] }
    | Except.ok true => { status := 200, body := dupBody, effects := [] }
    | Except.ok false =>
      match r.rawBody with
      | none => { status := 400, body := "bad json", effects := [Effect.bodyDecode] }
      | some env0 =>
        let env := { env0 with
          GWHW := goUpper (goTrimSpace env0.GWHW)
          GWMAC := goUpper (goTrimSpace env0.GWMAC) }
        if env.GWHW = "" ∨ env.GWMAC = "" ∨ env.PayloadHex = "" then
          { status := 400, body := "missing fields (gw_hw, gw_mac, payload_hex)"
            effects := [Effect.bodyDecode] }
        else if env.GWMAC.data.length ≠ 12 then
          { status := 400, body := "bad gw_mac (expect 12 hex chars, no separators)"
            effects := [Effect.bodyDecode] }
        else
          let flagToStore := goTrimSpace env.Flag
          let step : Bool × Option AutoStatus × Option AutoFix :=
            if env.GWHW = "MKGW4" then
              let bare := goUpper (goTrimSpace (trimSelfFlag (goLower flagToStore)))
              if looksLikeHex env.PayloadHex ∧
                  (bare = "3004" ∨ bare = "3089" ∨ bare = "30B1") then
                match DecodeMKGW4Auto bare env.PayloadHex w.now with
                | DecodeResult.decoded a => (true, a.Status, a.Fix)
                | _ => (true, none, none)
              else (false, none, none)
            else (false, none, none)
          let st := step.2.1
          let fx := step.2.2
          let effs1 := if step.1 then [Effect.bodyDecode, Effect.frameDecode]
            else [Effect.bodyDecode]
          let effs2 :=
            match env.RowID with
            | some rid =>
              if 0 < rid then effs1 ++ [Effect.persistMerge rid st fx] else effs1
            | none => effs1
          { status := 200, body := okBody
            effects := effs2 ++ [Effect.publish st fx] }

/-- External outcomes for one request of the upsert handler variant.  That
variant calls a one-argument `DecodeMKGW4Auto([]byte(payload))` whose body
is not among the given sources (only this call site is); its outcome is
therefore an oracle input `decodeOut`, used only on the MKGW4 hex path. -/
structure UpsWorld where
  authToken : String
  receiptRows : Except Unit Nat
  decodeOut : DecodeResult
  upsertFails : Bool
deriving Repr

/-- The upsert `handleAuto` variant (the one calling `store.UpsertAuto`).
Its idempotency-key check does not trim, its MAC check goes through
`ParseMAC12`, and — unlike the pub/sub variant — a persistence failure is
fatal: `UpsertAuto` error ⇒ `500 "server error"`. -/
def handleAutoUpsert (w : UpsWorld) (r : Request) : HResponse :=
  if r.method ≠ "POST" then
    { status := 405, body := "method not allowed", effects := [] }
  else if w.authToken ≠ "" ∧
      (trimBearer r.authHeader = "" ∨ trimBearer r.authHeader ≠ w.authToken) then
    { status := 401, body := "unauthorized", effects := [] }
  else if r.idemKey = "" then
    { status := 400, body := "missing idempotency", effects := [] }
  else
    match receiptsSeen w.receiptRows with
    | Except.error _ => { status := 500, body := "server error", effects := [] }
    | Except.ok true => { status := 200, body := dupBody, effects := [] }
    | Except.ok false =>
      match r.rawBody with
      | none => { status := 400, body := "bad json", effects := [Effect.bodyDecode] }
      | some env =>
        if env.GWHW = "" ∨ env.GWMAC = "" ∨ env.PayloadHex = "" then
          { status := 400, body := "missing fields", effects := [Effect.bodyDecode] }
        else
          match ParseMAC12 (goUpper env.GWMAC) with
          | Except.error _ =>
            { status := 400, body := "bad gw_mac", effects := [Effect.bodyDecode] }
          | Except.ok _ =>
            let step : Bool × Option AutoStatus × Option AutoFix :=
              if goUpper env.GWHW = "MKGW4" ∧ looksLikeHex env.PayloadHex then
                match w.decodeOut with
                | DecodeResult.decoded a => (true, a.Status, a.Fix)
                | _ => (true, none, none)
              else (false, none, none)
            let st := step.2.1
            let fx := step.2.2
            let effs1 := if step.1 then [Effect.bodyDecode, Effect.frameDecode]
              else [Effect.bodyDecode]
            let effs := effs1 ++ [Effect.persistUpsert st fx]
            if w.upsertFails then
              { status := 500, body := "server error", effects := effs }
            else
              { status := 200, body := "", effects := effs }

/-! ## Specification-side helper functions

These are used only to state properties; they are not part of the source
embedding. -/

/-- One TLV record applied to the status parser state: the tag switch with
`ln` equal to the record's value length (which is what the parser passes
once the bounds check has succeeded). -/
def statusFoldStep (p : AutoStatus × Nat) (r : Nat × List Nat) : AutoStatus × Nat :=
  statusSwitch p.1 p.2 r.1 r.2.length r.2

/-- Value of the last record with tag 0x06 (last-wins), empty if none. -/
def lastTag06 (rs : List (Nat × List Nat)) : List Nat :=
  rs.foldl (fun acc r => if r.1 = 6 then r.2 else acc) []

/-- The spec's reading of a 12-character MAC string: byte `i` is the value
of the hexadecimal character pair `[2i, 2i+1]`. -/
def specMacBytes : List Char → List Nat
  | c1 :: c2 :: rest =>
    ((hexDigitVal c1).getD 0 * 16 + (hexDigitVal c2).getD 0) :: specMacBytes rest
  | _ => []

/-! # Theorems -/

/-- `Char.ofNat`/`Char.toNat` round-trip on the basic plane. -/
theorem charOfNatToNat (n : Nat) (h : n < 55296) : (Char.ofNat n).toNat = n := by
  unfold Char.ofNat Char.toNat
  rw [dif_pos]
  · rfl
  · exact Or.inl h

/-- The status parser succeeds exactly on structurally well-shaped TLV
buffers. -/
theorem parseStatus_isOk (body : List Nat) (st : AutoStatus) (ts : Nat) :
    (parseStatusTLV body st ts).isOk = tlvShapeOK body := by
  induction body, st, ts using parseStatusTLV.induct with
  | case1 st ts => simp [parseStatusTLV, tlvShapeOK, Except.isOk, Except.toBool]
  | case2 tag b0 b1 r2 st ts ln hle p ih =>
    simp only [parseStatusTLV, tlvShapeOK]
    rw [if_pos hle]
    simp [hle, ih]
  | case3 tag b0 b1 r2 st ts ln hle =>
    simp only [parseStatusTLV, tlvShapeOK]
    rw [if_neg hle]
    simp [hle, Except.isOk, Except.toBool]
  | case4 x st ts => simp [parseStatusTLV, tlvShapeOK, Except.isOk, Except.toBool]
  | case5 x y st ts => simp [parseStatusTLV, tlvShapeOK, Except.isOk, Except.toBool]

/-- The fix parser succeeds exactly on structurally well-shaped TLV
buffers. -/
theorem parseFix_isOk (body : List Nat) (f : AutoFix) (ts : Nat) :
    (parseFixTLV body f ts).isOk = tlvShapeOK body := by
  induction body, f, ts using parseFixTLV.induct with
  | case1 f ts => simp [parseFixTLV, tlvShapeOK, Except.isOk, Except.toBool]
  | case2 tag b0 b1 r2 f ts ln hle p ih =>
    simp only [parseFixTLV, tlvShapeOK]
    rw [if_pos hle]
    simp [hle, ih]
  | case3 tag b0 b1 r2 f ts ln hle =>
    simp only [parseFixTLV, tlvShapeOK]
    rw [if_neg hle]
    simp [hle, Except.isOk, Except.toBool]
  | case4 x f ts => simp [parseFixTLV, tlvShapeOK, Except.isOk, Except.toBool]
  | case5 x y f ts => simp [parseFixTLV, tlvShapeOK, Except.isOk, Except.toBool]

/-- **C3**: `parseStatusTLV` and `parseFixTLV` are total Lean functions (no
out-of-bounds access and no panic is possible: every byte read is behind
the source's own bounds checks), and on every byte buffer they return a
decode error exactly when some TLV step finds fewer than 2 bytes for the
length header or fewer remaining bytes than the declared value length
(`tlvShapeOK` is that structural condition); otherwise they complete
normally. -/
theorem claim3_tlv_total_and_truncation (body : List Nat) :
    ((parseStatusRun body).isOk = tlvShapeOK body) ∧
    ((parseFixRun body).isOk = tlvShapeOK body) :=
  ⟨parseStatus_isOk body AutoStatus.zero 0, parseFix_isOk body AutoFix.zero 0⟩

theorem fix_tag4_eval (b0 b1 b2 b3 b4 b5 : Nat) (rest : List Nat) (hi lo : Nat)
    (h : be16 hi lo = rest.length + 6) :
    parseFixRun (4 :: hi :: lo :: b0 :: b1 :: b2 :: b3 :: b4 :: b5 :: rest) =
      Except.ok
        ({ AutoFix.zero with
            CI := (be32 b0 b1 b2 b3 : Int), TacLac := be16 b4 b5 }, 0) := by
  have hlen : (b0 :: b1 :: b2 :: b3 :: b4 :: b5 :: rest).length = be16 hi lo := by
    simp [h]
  have hle : be16 hi lo ≤ (b0 :: b1 :: b2 :: b3 :: b4 :: b5 :: rest).length :=
    le_of_eq hlen.symm
  rw [parseFixRun]
  simp only [parseFixTLV]
  rw [if_pos hle]
  rw [List.take_of_length_le (le_of_eq hlen), List.drop_eq_nil_of_le (le_of_eq hlen)]
  simp only [parseFixTLV]
  simp [fixSwitch, h]



theorem fix_tag1_eval (v : Nat) (rest : List Nat) (hi lo : Nat)
    (h : be16 hi lo = rest.length + 1) :
    parseFixRun (1 :: hi :: lo :: v :: rest) =
      Except.ok
        ({ AutoFix.zero with
            FixMode := if v < 3 then fixModeNames.getD v "" else "" }, 0) := by
  have hlen : (v :: rest).length = be16 hi lo := by simp [h]
  rw [parseFixRun]
  simp only [parseFixTLV]
  rw [if_pos (le_of_eq hlen.symm)]
  rw [List.take_of_length_le (le_of_eq hlen), List.drop_eq_nil_of_le (le_of_eq hlen)]
  simp only [parseFixTLV]
  by_cases hv : v < 3 <;> simp [fixSwitch, h, fixModeNames, hv, AutoFix.zero]

theorem fix_tag2_eval (v : Nat) (rest : List Nat) (hi lo : Nat)
    (h : be16 hi lo = rest.length + 1) :
    parseFixRun (2 :: hi :: lo :: v :: rest) =
      Except.ok
        ({ AutoFix.zero with
            FixResult := if v < 8 then fixResultNames.getD v "" else "" }, 0) := by
  have hlen : (v :: rest).length = be16 hi lo := by simp [h]
  rw [parseFixRun]
  simp only [parseFixTLV]
  rw [if_pos (le_of_eq hlen.symm)]
  rw [List.take_of_length_le (le_of_eq hlen), List.drop_eq_nil_of_le (le_of_eq hlen)]
  simp only [parseFixTLV]
  by_cases hv : v < 8 <;> simp [fixSwitch, h, fixResultNames, hv, AutoFix.zero]

theorem parseStatus_records (body : List Nat) (st : AutoStatus) (ts : Nat) :
    ∀ rs, tlvRecords body = some rs →
      parseStatusTLV body st ts = Except.ok (rs.foldl statusFoldStep (st, ts)) := by
  induction body, st, ts using parseStatusTLV.induct with
  | case1 st ts =>
    intro rs h
    simp [tlvRecords] at h
    subst h
    simp [parseStatusTLV]
  | case2 tag b0 b1 r2 st ts ln hle p ih =>
    intro rs h
    simp only [tlvRecords] at h
    rw [if_pos hle] at h
    rcases heq : tlvRecords (r2.drop ln) with _ | rs'
    · rw [heq] at h; simp at h
    · rw [heq] at h
      simp only [Option.some.injEq] at h
      subst h
      simp only [parseStatusTLV]
      rw [if_pos hle]
      rw [ih rs' heq]
      simp only [List.foldl_cons]
      congr 2
      simp [statusFoldStep, List.length_take, Nat.min_eq_left hle]
  | case3 tag b0 b1 r2 st ts ln hle =>
    intro rs h
    simp only [tlvRecords] at h
    rw [if_neg hle] at h
    simp at h
  | case4 x st ts => intro rs h; simp [tlvRecords] at h
  | case5 x y st ts => intro rs h; simp [tlvRecords] at h

theorem statusSwitch_ICCID (st : AutoStatus) (ts : Nat) (tag ln : Nat) (v : List Nat) :
    (statusSwitch st ts tag ln v).1.ICCID = st.ICCID := by
  unfold statusSwitch
  split <;> first | rfl | (split <;> rfl)

theorem statusSwitch_IMEI (st : AutoStatus) (ts : Nat) (tag ln : Nat) (v : List Nat) :
    (statusSwitch st ts tag ln v).1.IMEI = if tag = 6 then v else st.IMEI := by
  unfold statusSwitch
  split <;> (try split) <;> simp_all

theorem statusSwitch_NT_ne (st : AutoStatus) (ts : Nat) (tag ln : Nat) (v : List Nat)
    (h : tag ≠ 1) : (statusSwitch st ts tag ln v).1.NetworkType = st.NetworkType := by
  unfold statusSwitch
  split <;> first | (split <;> simp_all) | simp_all

theorem foldl_ICCID (rs : List (Nat × List Nat)) (p : AutoStatus × Nat) :
    (rs.foldl statusFoldStep p).1.ICCID = p.1.ICCID := by
  induction rs generalizing p with
  | nil => rfl
  | cons r rs ih =>
    rw [List.foldl_cons, ih]
    exact statusSwitch_ICCID p.1 p.2 r.1 r.2.length r.2

theorem foldl_IMEI (rs : List (Nat × List Nat)) (p : AutoStatus × Nat) :
    (rs.foldl statusFoldStep p).1.IMEI =
      rs.foldl (fun acc r => if r.1 = 6 then r.2 else acc) p.1.IMEI := by
  induction rs generalizing p with
  | nil => rfl
  | cons r rs ih =>
    rw [List.foldl_cons, List.foldl_cons, ih]
    simp only [statusFoldStep]
    rw [statusSwitch_IMEI p.1 p.2 r.1 r.2.length r.2]

theorem foldl_NT_ne (rs : List (Nat × List Nat)) (p : AutoStatus × Nat)
    (h : ∀ r ∈ rs, r.1 ≠ 1) : (rs.foldl statusFoldStep p).1.NetworkType = p.1.NetworkType := by
  induction rs generalizing p with
  | nil => rfl
  | cons r rs ih =>
    rw [List.foldl_cons, ih _ (fun x hx => h x (List.mem_cons_of_mem r hx))]
    exact statusSwitch_NT_ne p.1 p.2 r.1 r.2.length r.2 (h r (List.mem_cons_self r rs))

/-- **C9**: in the status decoder ICCID and IMEI share tag 0x06 and the
assignment is last-wins: on every successfully decoded status frame the
IMEI equals the value bytes of the last tag-0x06 record (empty when none
occurs), and the ICCID is never populated — it is the empty/absent value
for every input buffer. -/
theorem claim9_iccid_imei_tag06 (body : List Nat) (rs : List (Nat × List Nat))
    (out : AutoStatus × Nat) (h1 : tlvRecords body = some rs)
    (h2 : parseStatusRun body = Except.ok out) :
    out.1.ICCID = [] ∧ out.1.IMEI = lastTag06 rs := by
  have hr := parseStatus_records body AutoStatus.zero 0 rs h1
  rw [parseStatusRun] at h2
  rw [hr] at h2
  have hout : out = rs.foldl statusFoldStep (AutoStatus.zero, 0) :=
    (Except.ok.injEq _ _).mp h2.symm
  subst hout
  constructor
  · rw [foldl_ICCID]
    rfl
  · rw [foldl_IMEI]
    rfl

/-- Witness for C9 at the concrete frame `[6,0,2,65,66, 6,0,1,67]` (two
tag-0x06 records; IMEI ends as the second value, ICCID stays empty). -/
theorem claim9_iccid_imei_tag06_witness :
    tlvRecords [6,0,2,65,66,6,0,1,67] = some [(6,[65,66]),(6,[67])] ∧
    parseStatusRun [6,0,2,65,66,6,0,1,67] =
      Except.ok ({ AutoStatus.zero with IMEI := [67] }, 0) ∧
    ({ AutoStatus.zero with IMEI := [67] } : AutoStatus).ICCID = [] ∧
    ({ AutoStatus.zero with IMEI := [67] } : AutoStatus).IMEI =
      lastTag06 [(6,[65,66]),(6,[67])] := by
  refine ⟨?_, ?_, ?_⟩
  · simp [tlvRecords, be16]
  · simp [parseStatusRun, parseStatusTLV, statusSwitch, be16, AutoStatus.zero]
  · exact claim9_iccid_imei_tag06 [6,0,2,65,66,6,0,1,67] [(6,[65,66]),(6,[67])]
      ({ AutoStatus.zero with IMEI := [67] }, 0)
      (by simp [tlvRecords, be16])
      (by simp [parseStatusRun, parseStatusTLV, statusSwitch, be16, AutoStatus.zero])

/-- **C6 is false as stated**: the decoder leaves a missing numeric field at
the Go zero value, indistinguishable from a reported zero — the empty status
frame and a frame explicitly reporting CSQ 0 decode to the very same record
— and the store write then passes 0 (not NULL) for the csq column. -/
theorem claim6_counterexample :
    parseStatusRun [] = Except.ok (AutoStatus.zero, 0) ∧
    parseStatusRun [2,0,1,0] = Except.ok (AutoStatus.zero, 0) ∧
    AutoStatus.zero.CSQ = 0 ∧
    (buildDenormParams "mkgw4:auto" "" true 0 (some AutoStatus.zero) none).csq = some 0 := by
  refine ⟨?_, ?_, rfl, ?_⟩
  · simp [parseStatusRun, parseStatusTLV]
  · simp [parseStatusRun, parseStatusTLV, statusSwitch, be16, AutoStatus.zero]
  · simp [buildDenormParams, AutoStatus.zero]

theorem statusSwitch_CSQ_keep (st : AutoStatus) (ts : Nat) (tag ln : Nat)
    (v : List Nat) (h : tag = 2 → ln < 1) :
    (statusSwitch st ts tag ln v).1.CSQ = st.CSQ := by
  unfold statusSwitch
  split <;> (try split) <;> simp_all

theorem statusSwitch_Batt_keep (st : AutoStatus) (ts : Nat) (tag ln : Nat)
    (v : List Nat) (h : tag = 3 → ln < 2) :
    (statusSwitch st ts tag ln v).1.BattmV = st.BattmV := by
  unfold statusSwitch
  split <;> (try split) <;> simp_all
  all_goals omega

theorem statusSwitch_Axis_keep (st : AutoStatus) (ts : Nat) (tag ln : Nat)
    (v : List Nat) (h : tag = 4 → ln < 3) :
    (statusSwitch st ts tag ln v).1.AxisXmg = st.AxisXmg ∧
    (statusSwitch st ts tag ln v).1.AxisYmg = st.AxisYmg ∧
    (statusSwitch st ts tag ln v).1.AxisZmg = st.AxisZmg := by
  unfold statusSwitch
  split <;> (try split) <;> simp_all
  all_goals omega

theorem statusSwitch_Acc_keep (st : AutoStatus) (ts : Nat) (tag ln : Nat)
    (v : List Nat) (h : tag = 5 → ln < 1) :
    (statusSwitch st ts tag ln v).1.AccStatus = st.AccStatus := by
  unfold statusSwitch
  split <;> (try split) <;> simp_all

theorem foldl_CSQ_keep (rs : List (Nat × List Nat)) (p : AutoStatus × Nat)
    (h : ∀ r ∈ rs, r.1 = 2 → r.2.length < 1) :
    (rs.foldl statusFoldStep p).1.CSQ = p.1.CSQ := by
  induction rs generalizing p with
  | nil => rfl
  | cons r rs ih =>
    rw [List.foldl_cons, ih _ (fun x hx => h x (List.mem_cons_of_mem r hx))]
    exact statusSwitch_CSQ_keep p.1 p.2 r.1 r.2.length r.2 (h r (List.mem_cons_self r rs))

theorem foldl_Batt_keep (rs : List (Nat × List Nat)) (p : AutoStatus × Nat)
    (h : ∀ r ∈ rs, r.1 = 3 → r.2.length < 2) :
    (rs.foldl statusFoldStep p).1.BattmV = p.1.BattmV := by
  induction rs generalizing p with
  | nil => rfl
  | cons r rs ih =>
    rw [List.foldl_cons, ih _ (fun x hx => h x (List.mem_cons_of_mem r hx))]
    exact statusSwitch_Batt_keep p.1 p.2 r.1 r.2.length r.2 (h r (List.mem_cons_self r rs))

theorem foldl_Axis_keep (rs : List (Nat × List Nat)) (p : AutoStatus × Nat)
    (h : ∀ r ∈ rs, r.1 = 4 → r.2.length < 3) :
    (rs.foldl statusFoldStep p).1.AxisXmg = p.1.AxisXmg ∧
    (rs.foldl statusFoldStep p).1.AxisYmg = p.1.AxisYmg ∧
    (rs.foldl statusFoldStep p).1.AxisZmg = p.1.AxisZmg := by
  induction rs generalizing p with
  | nil => exact ⟨rfl, rfl, rfl⟩
  | cons r rs ih =>
    have hstep := statusSwitch_Axis_keep p.1 p.2 r.1 r.2.length r.2
      (h r (List.mem_cons_self r rs))
    have hrest := ih (statusFoldStep p r) (fun x hx => h x (List.mem_cons_of_mem r hx))
    refine ⟨?_, ?_, ?_⟩
    · rw [List.foldl_cons, hrest.1]; exact hstep.1
    · rw [List.foldl_cons, hrest.2.1]; exact hstep.2.1
    · rw [List.foldl_cons, hrest.2.2]; exact hstep.2.2

theorem foldl_Acc_keep (rs : List (Nat × List Nat)) (p : AutoStatus × Nat)
    (h : ∀ r ∈ rs, r.1 = 5 → r.2.length < 1) :
    (rs.foldl statusFoldStep p).1.AccStatus = p.1.AccStatus := by
  induction rs generalizing p with
  | nil => rfl
  | cons r rs ih =>
    rw [List.foldl_cons, ih _ (fun x hx => h x (List.mem_cons_of_mem r hx))]
    exact statusSwitch_Acc_keep p.1 p.2 r.1 r.2.length r.2 (h r (List.mem_cons_self r rs))

theorem foldl_IMEI_keep (rs : List (Nat × List Nat)) (p : AutoStatus × Nat)
    (h : ∀ r ∈ rs, r.1 ≠ 6) :
    (rs.foldl statusFoldStep p).1.IMEI = p.1.IMEI := by
  induction rs generalizing p with
  | nil => rfl
  | cons r rs ih =>
    rw [List.foldl_cons, ih _ (fun x hx => h x (List.mem_cons_of_mem r hx))]
    have := statusSwitch_IMEI p.1 p.2 r.1 r.2.length r.2
    rw [if_neg (h r (List.mem_cons_self r rs))] at this
    exact this



/-- **C6 amended**: on a status frame in which every field tag is
missing or carries a declared length shorter than the field's expected
width, ALL nine StatusReport fields are left at their Go zero values — the
numerics at 0, indistinguishable from a reported zero, the strings at the
empty string, indistinguishable from a reported empty string — and the
store parameters then bind the numeric zeros as literal 0 (not NULL) and
map the empty strings to NULL. -/
theorem claim6_missing_tag_defaults (body : List Nat)
    (rs : List (Nat × List Nat)) (out : AutoStatus × Nat) (pn pj : String)
    (z : Bool) (ms : Int)
    (h1 : tlvRecords body = some rs) (h2 : parseStatusRun body = Except.ok out)
    (hNT : ∀ r ∈ rs, r.1 ≠ 1)
    (hCSQ : ∀ r ∈ rs, r.1 = 2 → r.2.length < 1)
    (hBatt : ∀ r ∈ rs, r.1 = 3 → r.2.length < 2)
    (hAx : ∀ r ∈ rs, r.1 = 4 → r.2.length < 3)
    (hAcc : ∀ r ∈ rs, r.1 = 5 → r.2.length < 1)
    (hIM : ∀ r ∈ rs, r.1 ≠ 6) :
    (out.1.NetworkType = [] ∧ out.1.CSQ = 0 ∧ out.1.BattmV = 0 ∧
     out.1.AxisXmg = 0 ∧ out.1.AxisYmg = 0 ∧ out.1.AxisZmg = 0 ∧
     out.1.AccStatus = 0 ∧ out.1.IMEI = [] ∧ out.1.ICCID = []) ∧
    buildDenormParams pn pj z ms (some out.1) none =
      { parserName := pn, parserJson := pj
        tsDev := if z then none else some ms
        lat := none, lon := none, tac := none, ci := none
        netType := none, csq := some 0, batt := some 0
        ax := some 0, ay := some 0, az := some 0, acc := some 0
        imei := none, iccid := none } := by
  have hr := parseStatus_records body AutoStatus.zero 0 rs h1
  rw [parseStatusRun] at h2
  rw [hr] at h2
  have hout : out = rs.foldl statusFoldStep (AutoStatus.zero, 0) :=
    (Except.ok.injEq _ _).mp h2.symm
  subst hout
  have eNT : (rs.foldl statusFoldStep (AutoStatus.zero, 0)).1.NetworkType = [] := by
    rw [foldl_NT_ne rs (AutoStatus.zero, 0) hNT]
    rfl
  have eCSQ : (rs.foldl statusFoldStep (AutoStatus.zero, 0)).1.CSQ = 0 := by
    rw [foldl_CSQ_keep rs (AutoStatus.zero, 0) hCSQ]
    rfl
  have eB : (rs.foldl statusFoldStep (AutoStatus.zero, 0)).1.BattmV = 0 := by
    rw [foldl_Batt_keep rs (AutoStatus.zero, 0) hBatt]
    rfl
  have eAx := foldl_Axis_keep rs (AutoStatus.zero, 0) hAx
  have eX : (rs.foldl statusFoldStep (AutoStatus.zero, 0)).1.AxisXmg = 0 := by
    rw [eAx.1]
    rfl
  have eY : (rs.foldl statusFoldStep (AutoStatus.zero, 0)).1.AxisYmg = 0 := by
    rw [eAx.2.1]
    rfl
  have eZ : (rs.foldl statusFoldStep (AutoStatus.zero, 0)).1.AxisZmg = 0 := by
    rw [eAx.2.2]
    rfl
  have eAcc : (rs.foldl statusFoldStep (AutoStatus.zero, 0)).1.AccStatus = 0 := by
    rw [foldl_Acc_keep rs (AutoStatus.zero, 0) hAcc]
    rfl
  have eIM : (rs.foldl statusFoldStep (AutoStatus.zero, 0)).1.IMEI = [] := by
    rw [foldl_IMEI_keep rs (AutoStatus.zero, 0) hIM]
    rfl
  have eIC : (rs.foldl statusFoldStep (AutoStatus.zero, 0)).1.ICCID = [] := by
    rw [foldl_ICCID rs (AutoStatus.zero, 0)]
    rfl
  refine ⟨⟨eNT, eCSQ, eB, eX, eY, eZ, eAcc, eIM, eIC⟩, ?_⟩
  simp [buildDenormParams, eNT, eCSQ, eB, eX, eY, eZ, eAcc, eIM, eIC]

/-- Witness for the amended C6 at the concrete frame
`[2,0,0, 3,0,1,9, 7,0,1,99]`: tag 0x02 present with declared length 0 (too
short for its 1-byte width), tag 0x03 present with declared length 1 (too
short for its 2-byte width), an unknown tag 0x07, and all other tags
missing. -/
theorem claim6_missing_tag_defaults_witness :
    tlvRecords [2,0,0,3,0,1,9,7,0,1,99] = some [(2,[]),(3,[9]),(7,[99])] ∧
    parseStatusRun [2,0,0,3,0,1,9,7,0,1,99] = Except.ok (AutoStatus.zero, 0) ∧
    (∀ r ∈ [((2 : Nat),([] : List Nat)),(3,[9]),(7,[99])], r.1 ≠ 1) ∧
    (∀ r ∈ [((2 : Nat),([] : List Nat)),(3,[9]),(7,[99])], r.1 = 2 → r.2.length < 1) ∧
    (∀ r ∈ [((2 : Nat),([] : List Nat)),(3,[9]),(7,[99])], r.1 = 3 → r.2.length < 2) ∧
    (∀ r ∈ [((2 : Nat),([] : List Nat)),(3,[9]),(7,[99])], r.1 = 4 → r.2.length < 3) ∧
    (∀ r ∈ [((2 : Nat),([] : List Nat)),(3,[9]),(7,[99])], r.1 = 5 → r.2.length < 1) ∧
    (∀ r ∈ [((2 : Nat),([] : List Nat)),(3,[9]),(7,[99])], r.1 ≠ 6) ∧
    ((AutoStatus.zero.NetworkType = [] ∧ AutoStatus.zero.CSQ = 0 ∧
      AutoStatus.zero.BattmV = 0 ∧ AutoStatus.zero.AxisXmg = 0 ∧
      AutoStatus.zero.AxisYmg = 0 ∧ AutoStatus.zero.AxisZmg = 0 ∧
      AutoStatus.zero.AccStatus = 0 ∧ AutoStatus.zero.IMEI = [] ∧
      AutoStatus.zero.ICCID = []) ∧
     buildDenormParams "mkgw4:auto" "" true 0 (some AutoStatus.zero) none =
      { parserName := "mkgw4:auto", parserJson := ""
        tsDev := if true then none else some 0
        lat := none, lon := none, tac := none, ci := none
        netType := none, csq := some 0, batt := some 0
        ax := some 0, ay := some 0, az := some 0, acc := some 0
        imei := none, iccid := none }) := by
  refine ⟨?_, ?_, by decide, by decide, by decide, by decide, by decide, by decide, ?_⟩
  · simp [tlvRecords, be16]
  · simp [parseStatusRun, parseStatusTLV, statusSwitch, be16, AutoStatus.zero]
  · exact claim6_missing_tag_defaults [2,0,0,3,0,1,9,7,0,1,99]
      [(2,[]),(3,[9]),(7,[99])] (AutoStatus.zero, 0) "mkgw4:auto" "" true 0
      (by simp [tlvRecords, be16])
      (by simp [parseStatusRun, parseStatusTLV, statusSwitch, be16, AutoStatus.zero])
      (by decide) (by decide) (by decide) (by decide) (by decide) (by decide)

/-- **C5 is false as stated**: the decoder assembles the cell id with
`int64` arithmetic and no sign extension, so a first value byte with the
high bit set yields the positive unsigned value, not the negative signed
32-bit interpretation the claim (and the spec's FixReport model) state. -/
theorem claim5_counterexample :
    parseFixRun [4,0,6,128,0,0,0,0,1] =
      Except.ok ({ AutoFix.zero with CI := 2147483648, TacLac := 1 }, 0) ∧
    toSigned32 (be32 128 0 0 0) = -2147483648 ∧
    (2147483648 : Int) ≠ toSigned32 (be32 128 0 0 0) := by
  refine ⟨?_, by norm_num [toSigned32, be32], by norm_num [toSigned32, be32]⟩
  have h := fix_tag4_eval 128 0 0 0 0 1 [] 0 6 (by norm_num [be16])
  simpa [be32, be16] using h

/-- **C5 amended**: for a fix frame whose tag-0x04 record has declared
length ≥ 6, the decoded cell id equals the UNSIGNED big-endian 32-bit value
of the first 4 value bytes (hence is never negative), and tac/lac equals
the unsigned big-endian 16-bit value of the next 2 bytes. -/
theorem claim5_cellid_unsigned (b0 b1 b2 b3 b4 b5 : Nat) (rest : List Nat)
    (hi lo : Nat) (h : be16 hi lo = rest.length + 6) :
    parseFixRun (4 :: hi :: lo :: b0 :: b1 :: b2 :: b3 :: b4 :: b5 :: rest) =
      Except.ok
        ({ AutoFix.zero with
            CI := (be32 b0 b1 b2 b3 : Int), TacLac := be16 b4 b5 }, 0) ∧
    (0 : Int) ≤ ((be32 b0 b1 b2 b3 : Nat) : Int) :=
  ⟨fix_tag4_eval b0 b1 b2 b3 b4 b5 rest hi lo h, Int.ofNat_nonneg _⟩

/-- Witness for the amended C5 at a concrete frame. -/
theorem claim5_cellid_unsigned_witness :
    be16 0 6 = List.length ([] : List Nat) + 6 ∧
    (parseFixRun [4,0,6,0,0,0,1,0,2] =
      Except.ok ({ AutoFix.zero with CI := 1, TacLac := 2 }, 0) ∧
     (0 : Int) ≤ ((be32 0 0 0 1 : Nat) : Int)) := by
  refine ⟨by norm_num [be16], ?_⟩
  have h := claim5_cellid_unsigned 0 0 0 1 0 2 [] 0 6 (by norm_num [be16])
  simpa [be32, be16] using h

/-- **C8**: tag 0x01 value bytes 0/1/2 give fix modes Periodic, Motion,
Downlink; a value of 3 or more gives the decoder's Unknown representation —
the field keeps the Go zero value "" — without an error.  Tag 0x02
likewise indexes the 8-entry outcome table with the same out-of-range
fallback. -/
theorem claim8_mode_result_tables (v : Nat) (rest : List Nat) (hi lo : Nat)
    (h : be16 hi lo = rest.length + 1) :
    parseFixRun (1 :: hi :: lo :: v :: rest) =
      Except.ok
        ({ AutoFix.zero with
            FixMode := if v < 3 then fixModeNames.getD v "" else "" }, 0) ∧
    parseFixRun (2 :: hi :: lo :: v :: rest) =
      Except.ok
        ({ AutoFix.zero with
            FixResult := if v < 8 then fixResultNames.getD v "" else "" }, 0) ∧
    fixModeNames.getD 0 "" = "Periodic" ∧
    fixModeNames.getD 1 "" = "Motion" ∧
    fixModeNames.getD 2 "" = "Downlink" ∧
    fixModeNames.length = 3 ∧ fixResultNames.length = 8 :=
  ⟨fix_tag1_eval v rest hi lo h, fix_tag2_eval v rest hi lo h,
    rfl, rfl, rfl, rfl, rfl⟩

/-- Witness for C8 at value byte 7: an index out of range for the 3-entry
mode table decodes without error, leaving the mode at the Unknown/zero
value. -/
theorem claim8_mode_result_tables_witness :
    be16 0 1 = List.length ([] : List Nat) + 1 ∧
    parseFixRun [1,0,1,7] = Except.ok (AutoFix.zero, 0) ∧
    parseFixRun [2,0,1,7] =
      Except.ok ({ AutoFix.zero with FixResult := "LBS failure" }, 0) := by
  refine ⟨by norm_num [be16], ?_, ?_⟩
  · have h := (claim8_mode_result_tables 7 [] 0 1 (by norm_num [be16])).1
    simpa [AutoFix.zero] using h
  · have h := (claim8_mode_result_tables 7 [] 0 1 (by norm_num [be16])).2.1
    simpa [fixResultNames] using h

/-- A hexadecimal character is not Go whitespace. -/
theorem hexDigit_not_space (c : Char) (h : (hexDigitVal c).isSome) :
    isGoSpace c = false := by
  unfold hexDigitVal at h
  unfold isGoSpace
  simp only [decide_eq_false_iff_not]
  split_ifs at h with h1 h2 h3
  · omega
  · omega
  · omega
  · simp at h

set_option maxRecDepth 2000 in
/-- `goCharUpper` preserves the value of a hexadecimal character. -/
theorem hexDigitVal_goCharUpper (c : Char) (h : (hexDigitVal c).isSome) :
    hexDigitVal (goCharUpper c) = hexDigitVal c := by
  unfold goCharUpper
  by_cases hb : 97 ≤ c.toNat ∧ c.toNat ≤ 122
  · rw [if_pos hb]
    have ht : 97 ≤ c.toNat ∧ c.toNat ≤ 102 := by
      unfold hexDigitVal at h
      split_ifs at h with h1 h2 h3
      · omega
      · omega
      · omega
      · simp at h
    have hcn : (Char.ofNat (c.toNat - 32)).toNat = c.toNat - 32 :=
      charOfNatToNat _ (by omega)
    unfold hexDigitVal
    rw [hcn]
    split_ifs <;> first | rfl | (exfalso; omega)
  · rw [if_neg hb]

theorem dropWhile_eq_self_of_false {p : Char → Bool} (l : List Char)
    (h : ∀ c ∈ l, p c = false) : l.dropWhile p = l := by
  cases l with
  | nil => rfl
  | cons a l =>
    rw [List.dropWhile_cons, h a (List.mem_cons_self a l)]
    simp

/-- Trimming is the identity on a string without Go whitespace. -/
theorem goTrimSpace_of_noSpace (cs : List Char)
    (h : ∀ c ∈ cs, isGoSpace c = false) : goTrimSpace ⟨cs⟩ = ⟨cs⟩ := by
  unfold goTrimSpace
  rw [dropWhile_eq_self_of_false cs h]
  rw [dropWhile_eq_self_of_false cs.reverse (fun c hc => h c (List.mem_reverse.mp hc))]
  rw [List.reverse_reverse]

/-- On an even-length all-hex character list, the pair loop returns the
spec's pair values. -/
theorem macPairs_hex (cs : List Char) : cs.length % 2 = 0 →
    (∀ c ∈ cs, (hexDigitVal c).isSome) → macPairs cs = some (specMacBytes cs) := by
  match cs with
  | [] => intro _ _; rfl
  | [c] => intro he _; simp at he
  | c1 :: c2 :: rest =>
    intro he h
    have he2 : rest.length % 2 = 0 := by
      simp only [List.length_cons] at he
      omega
    have hrest := macPairs_hex rest he2 (fun c hc => h c (by simp [hc]))
    obtain ⟨v1, hv1⟩ := Option.isSome_iff_exists.mp (h c1 (by simp))
    obtain ⟨v2, hv2⟩ := Option.isSome_iff_exists.mp (h c2 (by simp))
    simp only [macPairs, sscanfHex2, specMacBytes, hv1, hv2, hrest, Option.getD_some]

/-- `specMacBytes` is unchanged by uppercasing hex characters. -/
theorem specMacBytes_map_upper (cs : List Char) :
    (∀ c ∈ cs, (hexDigitVal c).isSome) →
    specMacBytes (cs.map goCharUpper) = specMacBytes cs := by
  match cs with
  | [] => intro _; rfl
  | [c] => intro _; rfl
  | c1 :: c2 :: rest =>
    intro h
    simp only [List.map_cons]
    simp only [specMacBytes]
    rw [hexDigitVal_goCharUpper c1 (h c1 (by simp)),
      hexDigitVal_goCharUpper c2 (h c2 (by simp))]
    rw [specMacBytes_map_upper rest (fun c hc => h c (by simp [hc]))]

/-- **C7**: on any 12-character string of hexadecimal characters,
`ParseMAC12` returns the 6 bytes whose byte `i` is the value of the
character pair `[2i, 2i+1]`; on any string whose trimmed length differs
from 12 it returns the length error. -/
theorem claim7_parse_mac12 (cs : List Char) (s : String)
    (h12 : cs.length = 12) (hhex : ∀ c ∈ cs, (hexDigitVal c).isSome)
    (hbad : (goTrimSpace s).data.length ≠ 12) :
    ParseMAC12 ⟨cs⟩ = Except.ok (specMacBytes cs) ∧
    ParseMAC12 s = Except.error "mac must be 12 hex chars" := by
  constructor
  · simp only [ParseMAC12]
    rw [goTrimSpace_of_noSpace cs (fun c hc => hexDigit_not_space c (hhex c hc))]
    have hdata : (goUpper ⟨cs⟩).data = cs.map goCharUpper := rfl
    rw [hdata]
    have hlen : (cs.map goCharUpper).length = 12 := by simp [h12]
    rw [if_neg (by simp [hlen])]
    have hhex2 : ∀ c ∈ cs.map goCharUpper, (hexDigitVal c).isSome := by
      intro c hc
      obtain ⟨c0, hc0, rfl⟩ := List.mem_map.mp hc
      rw [hexDigitVal_goCharUpper c0 (hhex c0 hc0)]
      exact hhex c0 hc0
    rw [macPairs_hex (cs.map goCharUpper) (by simp [hlen]) hhex2]
    rw [specMacBytes_map_upper cs hhex]
  · simp only [ParseMAC12]
    have hlen : (goUpper (goTrimSpace s)).data.length = (goTrimSpace s).data.length := by
      simp [goUpper]
    rw [if_pos (by rw [hlen]; exact hbad)]

/-- Witness for C7: the spec's own example MAC and a short rejected
string. -/
theorem claim7_parse_mac12_witness :
    ("CCE01BA20624".data.length = 12 ∧
      (∀ c ∈ "CCE01BA20624".data, (hexDigitVal c).isSome) ∧
      (goTrimSpace "xyz").data.length ≠ 12) ∧
    ParseMAC12 "CCE01BA20624" = Except.ok [0xCC, 0xE0, 0x1B, 0xA2, 0x06, 0x24] ∧
    ParseMAC12 "xyz" = Except.error "mac must be 12 hex chars" := by
  refine ⟨⟨by decide, by decide, by decide⟩, ?_, ?_⟩
  · have h := (claim7_parse_mac12 "CCE01BA20624".data "xyz" (by decide) (by decide)
      (by decide)).1
    simpa using h
  · exact (claim7_parse_mac12 "CCE01BA20624".data "xyz" (by decide) (by decide)
      (by decide)).2

/-- **C4 is false as stated**: with no decoded report (`st = fx = none`)
every denormalized column parameter is NULL and the UPDATE overwrites the
stored values with NULL instead of keeping them — the merge is not
"replace if present, otherwise keep". -/
theorem claim4_counterexample :
    (applyDenormUpdate
        { parserName := "old", parserJson := "old", tsDevice := 7
          latitude := some 1, longitude := some 2, tac := some 3, cellId := some 4
          networkType := some [76, 84, 69], csq := some 7, battMv := some 3600
          axisX := some 1, axisY := some 2, axisZ := some 3, accStatus := some 1
          imei := some [51], iccid := some [52] }
        (buildDenormParams "mkgw4:auto" "new" true 0 none none)).networkType
      = none ∧
    (applyDenormUpdate
        { parserName := "old", parserJson := "old", tsDevice := 7
          latitude := some 1, longitude := some 2, tac := some 3, cellId := some 4
          networkType := some [76, 84, 69], csq := some 7, battMv := some 3600
          axisX := some 1, axisY := some 2, axisZ := some 3, accStatus := some 1
          imei := some [51], iccid := some [52] }
        (buildDenormParams "mkgw4:auto" "new" true 0 none none)).csq
      = none := by
  constructor <;> simp [applyDenormUpdate, buildDenormParams]

/-- **C4 amended**: `UpdateGatewayParsedAndDenormByID` overwrites every
denormalized column unconditionally with the freshly built parameter — the
decoded value when present, NULL when absent (iccid always NULL) — with no
dependence on the stored value; only `ts_device` has keep-if-absent
COALESCE semantics.  Parser name and canonical JSON are overwritten
unconditionally. -/
theorem claim4_overwrite_semantics (row : GatewayRow) (pn pj : String)
    (z : Bool) (ms : Int) (st : Option AutoStatus) (fx : Option AutoFix) :
    (applyDenormUpdate row (buildDenormParams pn pj z ms st fx)).parserName = pn ∧
    (applyDenormUpdate row (buildDenormParams pn pj z ms st fx)).parserJson = pj ∧
    (applyDenormUpdate row (buildDenormParams pn pj z ms st fx)).tsDevice =
      (if z then row.tsDevice else ms) ∧
    (applyDenormUpdate row (buildDenormParams pn pj z ms st fx)).latitude =
      (match fx with | some f => some f.Latitude | none => none) ∧
    (applyDenormUpdate row (buildDenormParams pn pj z ms st fx)).longitude =
      (match fx with | some f => some f.Longitude | none => none) ∧
    (applyDenormUpdate row (buildDenormParams pn pj z ms st fx)).tac =
      (match fx with | some f => some f.TacLac | none => none) ∧
    (applyDenormUpdate row (buildDenormParams pn pj z ms st fx)).cellId =
      (match fx with | some f => some f.CI | none => none) ∧
    (applyDenormUpdate row (buildDenormParams pn pj z ms st fx)).networkType =
      (match st with
       | some s => if s.NetworkType ≠ [] then some s.NetworkType else none
       | none => none) ∧
    (applyDenormUpdate row (buildDenormParams pn pj z ms st fx)).csq =
      (match st with | some s => some s.CSQ | none => none) ∧
    (applyDenormUpdate row (buildDenormParams pn pj z ms st fx)).battMv =
      (match st with | some s => some s.BattmV | none => none) ∧
    (applyDenormUpdate row (buildDenormParams pn pj z ms st fx)).axisX =
      (match st with | some s => some s.AxisXmg | none => none) ∧
    (applyDenormUpdate row (buildDenormParams pn pj z ms st fx)).axisY =
      (match st with | some s => some s.AxisYmg | none => none) ∧
    (applyDenormUpdate row (buildDenormParams pn pj z ms st fx)).axisZ =
      (match st with | some s => some s.AxisZmg | none => none) ∧
    (applyDenormUpdate row (buildDenormParams pn pj z ms st fx)).accStatus =
      (match st with | some s => some s.AccStatus | none => none) ∧
    (applyDenormUpdate row (buildDenormParams pn pj z ms st fx)).imei =
      (match st with
       | some s =>
         if s.ICCID ≠ [] then some s.ICCID
         else if s.IMEI ≠ [] then some s.IMEI else none
       | none => none) ∧
    (applyDenormUpdate row (buildDenormParams pn pj z ms st fx)).iccid = none := by
  cases st <;> cases fx <;>
    simp [applyDenormUpdate, buildDenormParams] <;>
    split_ifs <;> simp_all

/-- **C10**: a non-empty decoded ICCID is bound to the `imei` SQL
parameter, overwriting the IMEI binding, while the `iccid` parameter stays
NULL — so the iccid column is never written with a decoded ICCID (it is in
fact always overwritten with NULL by this UPDATE). -/
theorem claim10_iccid_goes_to_imei (pn pj : String) (z : Bool) (ms : Int)
    (s : AutoStatus) (fx : Option AutoFix) (row : GatewayRow)
    (h : s.ICCID ≠ []) :
    (buildDenormParams pn pj z ms (some s) fx).imei = some s.ICCID ∧
    (buildDenormParams pn pj z ms (some s) fx).iccid = none ∧
    (applyDenormUpdate row (buildDenormParams pn pj z ms (some s) fx)).iccid = none := by
  refine ⟨?_, rfl, rfl⟩
  simp [buildDenormParams, h]

/-- Witness for C10 at a concrete report carrying both IMEI and ICCID. -/
theorem claim10_iccid_goes_to_imei_witness :
    ({ AutoStatus.zero with IMEI := [51], ICCID := [52] } : AutoStatus).ICCID ≠ [] ∧
    (buildDenormParams "p" "j" true 0
      (some { AutoStatus.zero with IMEI := [51], ICCID := [52] }) none).imei = some [52] ∧
    (buildDenormParams "p" "j" true 0
      (some { AutoStatus.zero with IMEI := [51], ICCID := [52] }) none).iccid = none := by
  refine ⟨by decide, ?_, ?_⟩
  · exact (claim10_iccid_goes_to_imei "p" "j" true 0
      { AutoStatus.zero with IMEI := [51], ICCID := [52] } none
      { parserName := "", parserJson := "", tsDevice := 0
        latitude := none, longitude := none, tac := none, cellId := none
        networkType := none, csq := none, battMv := none
        axisX := none, axisY := none, axisZ := none, accStatus := none
        imei := none, iccid := none } (by decide)).1
  · exact (claim10_iccid_goes_to_imei "p" "j" true 0
      { AutoStatus.zero with IMEI := [51], ICCID := [52] } none
      { parserName := "", parserJson := "", tsDevice := 0
        latitude := none, longitude := none, tac := none, cellId := none
        networkType := none, csq := none, battMv := none
        axisX := none, axisY := none, axisZ := none, accStatus := none
        imei := none, iccid := none } (by decide)).2.1

/-- Auth passes (no token configured, or a matching non-empty bearer
token): the 401 branch condition is false. -/
theorem auth_pass_neg (tok : String) (hdr : String)
    (ha : tok = "" ∨ (trimBearer hdr ≠ "" ∧ trimBearer hdr = tok)) :
    ¬(tok ≠ "" ∧ (trimBearer hdr = "" ∨ trimBearer hdr ≠ tok)) := by
  rcases ha with h | hpair
  · simp [h]
  · simp [hpair.1, hpair.2]

/-- **C2**: a request whose idempotency key insert affects zero rows (an
already-reserved key) is answered `200 {"ok":true,"dup":true}` immediately,
with an empty effect trace: no body decode, no frame decode, no persistence
write and no publish. -/
theorem claim2_duplicate_short_circuit (w : PubWorld) (r : Request)
    (hm : r.method = "POST")
    (ha : w.authToken = "" ∨
      (trimBearer r.authHeader ≠ "" ∧ trimBearer r.authHeader = w.authToken))
    (hi : goTrimSpace r.idemKey ≠ "")
    (hd : w.receiptRows = Except.ok 0) :
    handleAutoPub w r = { status := 200, body := dupBody, effects := [] } := by
  unfold handleAutoPub
  rw [if_neg (by simp [hm])]
  rw [if_neg (auth_pass_neg w.authToken r.authHeader ha)]
  rw [if_neg hi]
  rw [hd]
  rfl

/-- Witness for C2 at a concrete duplicate request. -/
theorem claim2_duplicate_short_circuit_witness :
    goTrimSpace "k" ≠ "" ∧
    handleAutoPub
      { authToken := "", receiptRows := Except.ok 0, updateFails := true
        publishFails := true, now := 0 }
      { method := "POST", authHeader := "", idemKey := "k", rawBody := none } =
      { status := 200, body := dupBody, effects := [] } := by
  refine ⟨by decide, ?_⟩
  exact claim2_duplicate_short_circuit
    { authToken := "", receiptRows := Except.ok 0, updateFails := true
      publishFails := true, now := 0 }
    { method := "POST", authHeader := "", idemKey := "k", rawBody := none }
    rfl (Or.inl rfl) (by decide) rfl

/-- **C1 is false as stated**: in the upsert handler variant, a request
whose idempotency key is freshly reserved (`receiptsSeen` reports fresh)
but whose `UpsertAuto` persistence write fails is answered 500, not 200 —
the insert/upsert persistence path is NOT absorbed. -/
theorem claim1_counterexample :
    receiptsSeen (Except.ok 1) = Except.ok false ∧
    (handleAutoUpsert
      { authToken := "", receiptRows := Except.ok 1
        decodeOut := DecodeResult.notApplicable, upsertFails := true }
      { method := "POST", authHeader := "", idemKey := "k"
        rawBody := some
          { RowID := none, GWHW := "MKGW3", GWMAC := "CCE01BA20624", Topic := ""
            Flag := "f", DeviceTsMs := 0, PayloadHex := "x" } }).status = 500 := by
  exact ⟨rfl, by decide⟩

/-- **C1 amended**: in the pub/sub handler variant, once the idempotency
key is freshly reserved and the request body passes validation, the
response is `200 {"ok":true}` for every payload (frame decode errors are
absorbed), every merge-by-row-id outcome and every publish outcome; but a
request-body decode/validation failure after reservation still yields 400,
and in the upsert handler variant an upsert persistence error yields
500. -/
theorem claim1_fresh_absorbs_downstream (w : PubWorld) (r : Request) (env : Envelope)
    (hm : r.method = "POST")
    (ha : w.authToken = "" ∨
      (trimBearer r.authHeader ≠ "" ∧ trimBearer r.authHeader = w.authToken))
    (hi : goTrimSpace r.idemKey ≠ "")
    (hf : receiptsSeen w.receiptRows = Except.ok false)
    (hb : r.rawBody = some env)
    (h1 : goUpper (goTrimSpace env.GWHW) ≠ "")
    (h2 : goUpper (goTrimSpace env.GWMAC) ≠ "")
    (h3 : env.PayloadHex ≠ "")
    (h4 : (goUpper (goTrimSpace env.GWMAC)).data.length = 12) :
    (handleAutoPub w r).status = 200 ∧ (handleAutoPub w r).body = okBody := by
  unfold handleAutoPub
  rw [if_neg (by simp [hm])]
  rw [if_neg (auth_pass_neg w.authToken r.authHeader ha)]
  rw [if_neg hi]
  rw [hf, hb]
  constructor <;> simp [h1, h2, h3, h4]

/-- Witness for the amended C1: a fresh MKGW4 request carrying a truncated
TLV payload (decode error), a positive row id with a failing merge, and a
failing publish — still answered `200 {"ok":true}`. -/
theorem claim1_fresh_absorbs_downstream_witness :
    goTrimSpace "k" ≠ "" ∧
    receiptsSeen (Except.ok 1) = Except.ok false ∧
    goUpper (goTrimSpace "MKGW4") ≠ "" ∧
    goUpper (goTrimSpace "CCE01BA20624") ≠ "" ∧
    ("020005" : String) ≠ "" ∧
    (goUpper (goTrimSpace "CCE01BA20624")).data.length = 12 ∧
    ((handleAutoPub
      { authToken := "", receiptRows := Except.ok 1, updateFails := true
        publishFails := true, now := 0 }
      { method := "POST", authHeader := "", idemKey := "k"
        rawBody := some
          { RowID := some 5, GWHW := "MKGW4", GWMAC := "CCE01BA20624", Topic := "t"
            Flag := "self/3004", DeviceTsMs := 0, PayloadHex := "020005" } }).status
        = 200 ∧
     (handleAutoPub
      { authToken := "", receiptRows := Except.ok 1, updateFails := true
        publishFails := true, now := 0 }
      { method := "POST", authHeader := "", idemKey := "k"
        rawBody := some
          { RowID := some 5, GWHW := "MKGW4", GWMAC := "CCE01BA20624", Topic := "t"
            Flag := "self/3004", DeviceTsMs := 0, PayloadHex := "020005" } }).body
        = okBody) := by
  refine ⟨by decide, rfl, by decide, by decide, by decide, by decide, ?_⟩
  exact claim1_fresh_absorbs_downstream
    { authToken := "", receiptRows := Except.ok 1, updateFails := true
      publishFails := true, now := 0 }
    { method := "POST", authHeader := "", idemKey := "k"
      rawBody := some
        { RowID := some 5, GWHW := "MKGW4", GWMAC := "CCE01BA20624", Topic := "t"
          Flag := "self/3004", DeviceTsMs := 0, PayloadHex := "020005" } }
    { RowID := some 5, GWHW := "MKGW4", GWMAC := "CCE01BA20624", Topic := "t"
      Flag := "self/3004", DeviceTsMs := 0, PayloadHex := "020005" }
    rfl (Or.inl rfl) (by decide) rfl rfl (by decide) (by decide) (by decide) (by decide)

end BleGw
